import Mathlib

/-!
Shallow embedding of the session/channel layer of the `sshd` repository
(`channel.go`, the ServerConn code and the payload parsers, plus
`setwindowsize_unix.go`).

Byte slices are modelled as `List Nat` (each element a byte value); Go
strings are byte sequences and are modelled the same way.  External
nondeterminism (pty allocation, sftp server construction, the resize
ioctl, process exit state, close results) is provided as explicit inputs,
and the side effects of a handler (spawned work, ioctl invocations,
out-of-band sends, closes) are recorded as explicit event lists.
-/

namespace Sshd

/-- a Go byte slice / string: a list of byte values -/
abbrev Bytes := List Nat

/-- binary.BigEndian.Uint32 on the first four bytes of a slice -/
def beUint32 (b : Bytes) : Nat :=
  b.getD 0 0 * 16777216 + b.getD 1 0 * 65536 + b.getD 2 0 * 256 + b.getD 3 0

/-- binary.BigEndian.AppendUint32 nil n: the 4 big-endian bytes of n -/
def beBytes32 (n : Nat) : Bytes :=
  [n / 16777216 % 256, n / 65536 % 256, n / 256 % 256, n % 256]

/-- result triple of `parseString` (Go returns `(result, consumed, err)`;
`err` is true when the Go error is non-nil, in which case Go returns the
empty string and 0 consumed bytes) -/
structure ParseStringOut where
  result : Bytes
  consumed : Nat
  err : Bool
deriving Repr, DecidableEq

/-- parseString from channel.go: 4-byte big-endian length prefix, then
that many bytes; fails with 0 consumed if fewer than 4 bytes are present
or fewer than length+4 bytes total -/
def parseString (b : Bytes) : ParseStringOut :=
  if b.length < 4 then ⟨[], 0, true⟩
  else if b.length < beUint32 (b.take 4) + 4 then ⟨[], 0, true⟩
  else ⟨(b.drop 4).take (beUint32 (b.take 4)), beUint32 (b.take 4) + 4, false⟩

/-- result of `parseWindowSize` (Go returns four uint32 and an error;
on error Go returns zeros) -/
structure ParseWinOut where
  widthCharacter : Nat
  heightCharacter : Nat
  widthPixel : Nat
  heightPixel : Nat
  err : Bool
deriving Repr, DecidableEq

/-- parseWindowSize from channel.go: four consecutive 4-byte big-endian
unsigned integers, requiring at least 16 bytes -/
def parseWindowSize (b : Bytes) : ParseWinOut :=
  if b.length < 16 then ⟨0, 0, 0, 0, true⟩
  else ⟨beUint32 (b.take 4), beUint32 ((b.drop 4).take 4),
        beUint32 ((b.drop 8).take 4), beUint32 ((b.drop 12).take 4), false⟩

/-- result of `setWindowSize`: `ioctlArg` is the (row, col) pair handed
to the TIOCSWINSZ ioctl when that ioctl is invoked at all, and `err`
is true when the Go error is non-nil -/
structure SetWinOut where
  ioctlArg : Option (Nat × Nat)
  err : Bool
deriving Repr, DecidableEq

/-- setWindowSize from setwindowsize_unix.go: a no-op success when either
dimension is zero, otherwise the ioctl (whose success is the external
input `ioctlOk`) is invoked with the given row/col -/
def setWindowSize (ioctlOk : Bool) (row col : Nat) : SetWinOut :=
  if row = 0 || col = 0 then ⟨none, false⟩
  else ⟨some (row, col), !ioctlOk⟩

/-- the Go conversion uint16(x) on a uint32 value -/
def u16 (n : Nat) : Nat := n % 65536

/-- the Go conversion uint32(i) on a Go int value (two's complement) -/
def u32ofInt (i : Int) : Nat := (i % 4294967296).toNat

/-- the token-collection loop of the "exec" handler: repeatedly
parseString until the payload is exhausted; any parse error aborts the
whole request -/
def parseCommands (b : Bytes) : Option (List Bytes) :=
  if hb : b = [] then some []
  else
    if he : (parseString b).err then none
    else
      match parseCommands (b.drop (parseString b).consumed) with
      | none => none
      | some rest => some ((parseString b).result :: rest)
termination_by b.length
decreasing_by
  simp only [List.length_drop]
  have hb' : 0 < b.length := List.length_pos.mpr hb
  have hc : 0 < (parseString b).consumed := by
    unfold parseString at he ⊢
    split_ifs at he ⊢ with h1 h2
    · simp at he
    · simp at he
    · simp
  omega

/-- the per-channel mutable state touched by request dispatch
(`Channel.env`, `Channel.pty`, `Channel.tty`, `Channel.sftpServer`);
pty/tty hold abstract descriptor identities -/
structure ChannelState where
  env : List Bytes
  pty : Option Nat
  tty : Option Nat
  sftpServer : Bool
deriving Repr, DecidableEq

/-- the fields of `procesNewChan`'s freshly constructed Channel -/
def chanStart : ChannelState := { env := [], pty := none, tty := none, sftpServer := false }

/-- an ssh.Request as consumed by processReq: type tag, payload, WantReply -/
structure Request where
  rtype : String
  payload : Bytes
  wantReply : Bool
deriving Repr, DecidableEq

/-- outcomes of the external calls a single processReq step can make:
pty.Open (the new controlling/replica descriptor pair on success),
sftp.NewServer success, and the resize ioctl success -/
structure Oracle where
  ptyOpen : Option (Nat × Nat)
  sftpNew : Bool
  ioctl : Bool
deriving Repr, DecidableEq

/-- side effects recorded while processing one request -/
inductive Event where
  | spawnSftp
  | spawnTty (cmd : Bytes) (args : List Bytes)
  | spawnNoTty (cmd : Bytes) (args : List Bytes)
  | ioctlResize (row col : Nat)
deriving Repr, DecidableEq

/-- outcome of one processReq step: the updated channel state, the `ok`
flag that would be sent in the reply, and the recorded side effects -/
structure ReqResult where
  state : ChannelState
  ok : Bool
  events : List Event
deriving Repr, DecidableEq

/-- the bytes of the string literal "sftp" -/
def sftpName : Bytes := [115, 102, 116, 112]

/-- the bytes of the command name "bash" -/
def bashName : Bytes := [98, 97, 115, 104]

/-- the bytes of the argument "-c" -/
def dashC : Bytes := [45, 99]

/-- an early `return` out of processReq with `ok` still false: the state
is untouched and nothing was spawned -/
def failRes (c : ChannelState) : ReqResult := ⟨c, false, []⟩

/-- the ioctl-invocation events of one setWindowSize call -/
def resizeEvents (sw : SetWinOut) : List Event :=
  match sw.ioctlArg with
  | none => []
  | some rc => [Event.ioctlResize rc.1 rc.2]

/-- the "subsystem" arm of processReq -/
def subsystemCase (o : Oracle) (payload : Bytes) (c : ChannelState) : ReqResult :=
  if (parseString payload).err then failRes c
  else if (parseString payload).result ≠ sftpName then failRes c
  else if o.sftpNew = false then failRes c
  else ⟨{ c with sftpServer := true }, true, [Event.spawnSftp]⟩

/-- the "pty-req" arm of processReq: terminal-name string, then window
size; on a successful pty.Open the pair is stored unconditionally, and a
resize failure is only logged (ok stays true) -/
def ptyReqCase (o : Oracle) (payload : Bytes) (c : ChannelState) : ReqResult :=
  if (parseString payload).err then failRes c
  else if (parseWindowSize (payload.drop (parseString payload).consumed)).err then failRes c
  else
    match o.ptyOpen with
    | none => failRes c
    | some pt =>
      let w := parseWindowSize (payload.drop (parseString payload).consumed)
      ⟨{ c with pty := some pt.1, tty := some pt.2 }, true,
        resizeEvents (setWindowSize o.ioctl (u16 w.heightCharacter) (u16 w.widthCharacter))⟩

/-- the "window-change" arm of processReq -/
def windowChangeCase (o : Oracle) (payload : Bytes) (c : ChannelState) : ReqResult :=
  if c.pty = none then failRes c
  else if (parseWindowSize payload).err then failRes c
  else
    let w := parseWindowSize payload
    let sw := setWindowSize o.ioctl (u16 w.heightCharacter) (u16 w.widthCharacter)
    if sw.err then ⟨c, false, resizeEvents sw⟩
    else ⟨c, true, resizeEvents sw⟩

/-- the "env" arm of processReq: name string then value string, appended
as NAME=VALUE (61 is the byte of the equals sign) -/
def envCase (payload : Bytes) (c : ChannelState) : ReqResult :=
  if (parseString payload).err then failRes c
  else if (parseString (payload.drop (parseString payload).consumed)).err then failRes c
  else ⟨{ c with env := c.env ++
          [(parseString payload).result ++ [61] ++
            (parseString (payload.drop (parseString payload).consumed)).result] },
        true, []⟩

/-- the "shell" arm of processReq: empty payload and an existing pty are
required, then `ttyCmd("bash")` runs as tracked work -/
def shellCase (payload : Bytes) (c : ChannelState) : ReqResult :=
  if payload ≠ [] then failRes c
  else if c.pty = none then failRes c
  else ⟨c, true, [Event.spawnTty bashName []]⟩

/-- the "exec" arm of processReq: the commands slice starts as ["-c"],
each parsed token is appended, and `len(commands) <= 1` (no tokens)
fails; the spawn is tty-bound iff the channel has a tty -/
def execCase (payload : Bytes) (c : ChannelState) : ReqResult :=
  match parseCommands payload with
  | none => failRes c
  | some toks =>
    if toks = [] then failRes c
    else ⟨c, true,
      [if c.tty = none then Event.spawnNoTty bashName (dashC :: toks)
       else Event.spawnTty bashName (dashC :: toks)]⟩

/-- processReq from channel.go: the switch over the request type -/
def processReq (o : Oracle) (req : Request) (c : ChannelState) : ReqResult :=
  if req.rtype = "subsystem" then subsystemCase o req.payload c
  else if req.rtype = "pty-req" then ptyReqCase o req.payload c
  else if req.rtype = "window-change" then windowChangeCase o req.payload c
  else if req.rtype = "env" then envCase req.payload c
  else if req.rtype = "shell" then shellCase req.payload c
  else if req.rtype = "exec" then execCase req.payload c
  else failRes c

/-- os.ProcessState as finishCmd consumes it: `exitCode` is the value of
ProcessState.ExitCode(), which per the Go standard library is the exit
code of an exited process, or -1 if it was terminated by a signal -/
structure ProcState where
  exitCode : Int
deriving Repr, DecidableEq

/-- the external outcomes finishCmd observes: the process state after
Wait (none when unavailable, e.g. the command never started) and the
failure of each of its four calls -/
structure FinishInput where
  procState : Option ProcState
  waitErr : Bool
  closeWriteErr : Bool
  sendErr : Bool
  closeErr : Bool
deriving Repr, DecidableEq

/-- the exitcode computation of finishCmd: 255 when ProcessState is nil,
otherwise uint32(ProcessState.ExitCode()) -/
def exitcodeOf (ps : Option ProcState) : Nat :=
  match ps with
  | none => 255
  | some p => u32ofInt p.exitCode

/-- the calls finishCmd makes on the channel, each with its observed
failure flag -/
inductive FinishEvent where
  | wait (failed : Bool)
  | closeWrite (failed : Bool)
  | sendRequest (name : String) (wantReply : Bool) (payload : Bytes) (failed : Bool)
  | close (failed : Bool)
deriving Repr, DecidableEq

/-- finishCmd from channel.go: Wait, CloseWrite, one "exit-status" send
with no reply expected, then Close — each attempted unconditionally,
failures only logged -/
def finishCmd (inp : FinishInput) : List FinishEvent :=
  [FinishEvent.wait inp.waitErr,
   FinishEvent.closeWrite inp.closeWriteErr,
   FinishEvent.sendRequest "exit-status" false (beBytes32 (exitcodeOf inp.procState)) inp.sendErr,
   FinishEvent.close inp.closeErr]

/-- one recorded child as ServerConn.Close sees it: for each of pty, tty
and stream, `none` when the field is nil and `some e` when it exists and
its Close() returns an error iff `e` -/
structure ChildClose where
  pty : Option Bool
  tty : Option Bool
  stream : Option Bool
deriving Repr, DecidableEq

/-- the inputs of ServerConn.Close: the recorded children in order and
whether closing the transport fails -/
structure ConnClose where
  children : List ChildClose
  transportErr : Bool
deriving Repr, DecidableEq

/-- the steps ServerConn.Close takes, child steps tagged with the
child's index in the recorded list -/
inductive CloseEvent where
  | wait
  | cancelChild (i : Nat)
  | closePty (i : Nat)
  | closeTty (i : Nat)
  | closeStream (i : Nat)
  | cancelConn
  | closeTransport
deriving Repr, DecidableEq

/-- the per-child body of the loop in ServerConn.Close: cancel the
child's scope, then close each of pty, tty, stream that is present -/
def childCloseEvents (i : Nat) (ch : ChildClose) : List CloseEvent :=
  [CloseEvent.cancelChild i]
    ++ (if ch.pty.isSome then [CloseEvent.closePty i] else [])
    ++ (if ch.tty.isSome then [CloseEvent.closeTty i] else [])
    ++ (if ch.stream.isSome then [CloseEvent.closeStream i] else [])

/-- the close results the loop body appends to `errs` for one child -/
def childErrs (ch : ChildClose) : List Bool :=
  ch.pty.toList ++ ch.tty.toList ++ ch.stream.toList

/-- the loop of ServerConn.Close over the recorded children, indexed -/
def closeChildren (i : Nat) : List ChildClose → List CloseEvent
  | [] => []
  | ch :: rest => childCloseEvents i ch ++ closeChildren (i + 1) rest

/-- ServerConn.Close from the ServerConn code: Wait, the per-child loop,
cancel the connection scope, close the transport; the second component
is the `errs` slice handed to errors.Join (true entries are the non-nil
errors) -/
def serverConnClose (c : ConnClose) : List CloseEvent × List Bool :=
  (CloseEvent.wait :: (closeChildren 0 c.children
      ++ [CloseEvent.cancelConn, CloseEvent.closeTransport]),
   c.children.flatMap childErrs ++ [c.transportErr])

/-- parseCommands on an exhausted payload: the loop never runs -/
theorem parseCommands_nil : parseCommands [] = some [] := by
  rw [parseCommands]
  rfl

/-- one iteration of the exec token loop on a successfully parsed head -/
theorem parseCommands_cons (b : Bytes) (hb : b ≠ []) (he : (parseString b).err = false) :
    parseCommands b =
      (parseCommands (b.drop (parseString b).consumed)).map ((parseString b).result :: ·) := by
  rw [parseCommands]
  rw [dif_neg hb, dif_neg (by simp [he])]
  cases parseCommands (b.drop (parseString b).consumed) <;> rfl

/-- the exec payload encoding the two tokens "a" and "b" parses to those
two tokens -/
theorem parseCommands_two_tokens :
    parseCommands [0, 0, 0, 1, 97, 0, 0, 0, 1, 98] = some [[97], [98]] := by
  rw [parseCommands_cons _ (by decide) (by decide)]
  have h1 : (parseString [0, 0, 0, 1, 97, 0, 0, 0, 1, 98]).consumed = 5 := by decide
  have h2 : (parseString [0, 0, 0, 1, 97, 0, 0, 0, 1, 98]).result = [97] := by decide
  rw [h1, h2]
  rw [show List.drop 5 [0, 0, 0, 1, 97, 0, 0, 0, 1, 98] = [0, 0, 0, 1, 98] from rfl]
  rw [parseCommands_cons _ (by decide) (by decide)]
  have h3 : (parseString [0, 0, 0, 1, 98]).consumed = 5 := by decide
  have h4 : (parseString [0, 0, 0, 1, 98]).result = [98] := by decide
  rw [h3, h4]
  rw [show List.drop 5 [0, 0, 0, 1, 98] = ([] : Bytes) from rfl]
  rw [parseCommands_nil]
  rfl

/-- the exec payload encoding the single token "a" parses to it -/
theorem parseCommands_one_token :
    parseCommands [0, 0, 0, 1, 97] = some [[97]] := by
  rw [parseCommands_cons _ (by decide) (by decide)]
  have h1 : (parseString [0, 0, 0, 1, 97]).consumed = 5 := by decide
  have h2 : (parseString [0, 0, 0, 1, 97]).result = [97] := by decide
  rw [h1, h2]
  rw [show List.drop 5 [0, 0, 0, 1, 97] = ([] : Bytes) from rfl]
  rw [parseCommands_nil]
  rfl

/-- C8: length-prefixed string parsing fails consuming 0 bytes on a
buffer shorter than 4 bytes or shorter than the decoded length plus 4;
on success it returns the length bytes after the prefix and consumes
length+4; on 0x00000003 'a' 'b' 'c' 'X' 'Y' 'Z' it yields ("abc", 7,
success) leaving XYZ unconsumed. -/
theorem parseString_spec (b : Bytes) :
    (b.length < 4 → parseString b = ⟨[], 0, true⟩) ∧
    (4 ≤ b.length → b.length < beUint32 (b.take 4) + 4 → parseString b = ⟨[], 0, true⟩) ∧
    (beUint32 (b.take 4) + 4 ≤ b.length →
      parseString b = ⟨(b.drop 4).take (beUint32 (b.take 4)), beUint32 (b.take 4) + 4, false⟩) ∧
    parseString [0, 0, 0, 3, 97, 98, 99, 88, 89, 90] = ⟨[97, 98, 99], 7, false⟩ ∧
    List.drop 7 [0, 0, 0, 3, 97, 98, 99, 88, 89, 90] = [88, 89, 90] := by
  refine ⟨?_, ?_, ?_, by decide, by decide⟩
  · intro h
    rw [parseString, if_pos h]
  · intro h4 hlt
    rw [parseString, if_neg (by omega), if_pos hlt]
  · intro hle
    rw [parseString, if_neg (by omega), if_neg (by omega)]

theorem parseString_spec_witness :
    parseString [1, 2] = ⟨[], 0, true⟩ ∧
    parseString [0, 0, 0, 1] = ⟨[], 0, true⟩ ∧
    parseString [0, 0, 0, 0] = ⟨[], 4, false⟩ :=
  ⟨(parseString_spec [1, 2]).1 (by decide),
   (parseString_spec [0, 0, 0, 1]).2.1 (by decide) (by decide),
   (parseString_spec [0, 0, 0, 0]).2.2.1 (by decide)⟩

/-- C9: window-size parsing succeeds on any buffer of at least 16 bytes
returning the four consecutive big-endian 32-bit fields, fails on any
shorter buffer, and a 16-byte encoding of (80,24,0,0) yields exactly
that tuple while a 15-byte buffer fails. -/
theorem parseWindowSize_spec (b : Bytes) :
    (16 ≤ b.length →
      parseWindowSize b = ⟨beUint32 (b.take 4), beUint32 ((b.drop 4).take 4),
        beUint32 ((b.drop 8).take 4), beUint32 ((b.drop 12).take 4), false⟩) ∧
    (b.length < 16 → (parseWindowSize b).err = true) ∧
    parseWindowSize [0, 0, 0, 80, 0, 0, 0, 24, 0, 0, 0, 0, 0, 0, 0, 0] = ⟨80, 24, 0, 0, false⟩ ∧
    (parseWindowSize (List.replicate 15 0)).err = true := by
  refine ⟨?_, ?_, by decide, by decide⟩
  · intro h
    rw [parseWindowSize, if_neg (by omega)]
  · intro h
    rw [parseWindowSize, if_pos h]

theorem parseWindowSize_spec_witness :
    parseWindowSize [0, 0, 0, 80, 0, 0, 0, 24, 0, 0, 0, 0, 0, 0, 0, 1] = ⟨80, 24, 0, 1, false⟩ ∧
    (parseWindowSize [0, 0, 0]).err = true :=
  ⟨(parseWindowSize_spec _).1 (by decide), (parseWindowSize_spec [0, 0, 0]).2.1 (by decide)⟩

/-- C10: the parsed 32-bit dimensions are reduced modulo 2^16 before the
resize call, so a requested dimension that is a nonzero multiple of
65536 reduces to 0 and the resize is silently skipped: setWindowSize
performs no ioctl and returns success; concretely, a "window-change"
with height 65536 succeeds without any ioctl even when the ioctl would
fail. -/
theorem u16_multiple_skips_resize (d other : Nat) (io : Bool)
    (hd : d % 65536 = 0) (hnz : d ≠ 0) :
    0 < d ∧
    u16 d = 0 ∧
    setWindowSize io (u16 d) (u16 other) = ⟨none, false⟩ ∧
    setWindowSize io (u16 other) (u16 d) = ⟨none, false⟩ ∧
    (processReq ⟨none, true, false⟩
      ⟨"window-change", [0, 0, 0, 80, 0, 1, 0, 0, 0, 0, 0, 0, 0, 0, 0, 0], true⟩
      { env := [], pty := some 1, tty := some 2, sftpServer := false }).ok = true ∧
    (processReq ⟨none, true, false⟩
      ⟨"window-change", [0, 0, 0, 80, 0, 1, 0, 0, 0, 0, 0, 0, 0, 0, 0, 0], true⟩
      { env := [], pty := some 1, tty := some 2, sftpServer := false }).events = [] := by
  have h0 : u16 d = 0 := by simp [u16, hd]
  refine ⟨by omega, h0, ?_, ?_, by decide, by decide⟩
  · rw [h0, setWindowSize, if_pos (by simp)]
  · rw [h0, setWindowSize]
    simp

theorem u16_multiple_skips_resize_witness :
    u16 65536 = 0 ∧
    setWindowSize false (u16 65536) (u16 80) = ⟨none, false⟩ :=
  ⟨(u16_multiple_skips_resize 65536 80 false (by decide) (by decide)).2.1,
   (u16_multiple_skips_resize 65536 80 false (by decide) (by decide)).2.2.1⟩

/-- C5: on a channel whose pty is unset, a "window-change" request
always fails and leaves the channel state (in particular the pty field)
untouched, with no side effect. -/
theorem windowChange_without_pty_fails (o : Oracle) (payload : Bytes) (wr : Bool)
    (s : ChannelState) (h : s.pty = none) :
    (processReq o ⟨"window-change", payload, wr⟩ s).ok = false ∧
    (processReq o ⟨"window-change", payload, wr⟩ s).state = s ∧
    (processReq o ⟨"window-change", payload, wr⟩ s).state.pty = none ∧
    (processReq o ⟨"window-change", payload, wr⟩ s).events = [] := by
  have hr : processReq o ⟨"window-change", payload, wr⟩ s = failRes s := by
    simp [processReq, windowChangeCase, h]
  rw [hr]
  exact ⟨rfl, rfl, h, rfl⟩

theorem windowChange_without_pty_fails_witness :
    (processReq ⟨none, true, true⟩ ⟨"window-change", [], true⟩ chanStart).ok = false ∧
    (processReq ⟨none, true, true⟩ ⟨"window-change", [], true⟩ chanStart).state = chanStart ∧
    (processReq ⟨none, true, true⟩ ⟨"window-change", [], true⟩ chanStart).state.pty = none ∧
    (processReq ⟨none, true, true⟩ ⟨"window-change", [], true⟩ chanStart).events = [] :=
  windowChange_without_pty_fails ⟨none, true, true⟩ [] true chanStart rfl

/-- C6: a "shell" request with a non-empty payload always fails and
starts no process, and so does a "shell" request on a channel without a
pty; the state is untouched either way. -/
theorem shell_invalid_fails (o : Oracle) (payload : Bytes) (wr : Bool)
    (s : ChannelState) (h : payload ≠ [] ∨ s.pty = none) :
    (processReq o ⟨"shell", payload, wr⟩ s).ok = false ∧
    (processReq o ⟨"shell", payload, wr⟩ s).events = [] ∧
    (processReq o ⟨"shell", payload, wr⟩ s).state = s := by
  have hr : processReq o ⟨"shell", payload, wr⟩ s = failRes s := by
    rcases h with h | h
    · simp [processReq, shellCase, h]
    · by_cases hp : payload = []
      · simp [processReq, shellCase, hp, h]
      · simp [processReq, shellCase, hp]
  rw [hr]
  exact ⟨rfl, rfl, rfl⟩

theorem shell_invalid_fails_witness :
    (processReq ⟨none, true, true⟩ ⟨"shell", [1], true⟩ chanStart).ok = false ∧
    (processReq ⟨none, true, true⟩ ⟨"shell", [1], true⟩ chanStart).events = [] ∧
    (processReq ⟨none, true, true⟩ ⟨"shell", [1], true⟩ chanStart).state = chanStart :=
  shell_invalid_fails ⟨none, true, true⟩ [1] true chanStart (Or.inl (by decide))

/-- C7: an "exec" request whose payload yields zero tokens fails with no
process spawned and the state untouched. -/
theorem exec_zero_tokens_fails (o : Oracle) (payload : Bytes) (wr : Bool)
    (s : ChannelState) (h : parseCommands payload = some []) :
    (processReq o ⟨"exec", payload, wr⟩ s).ok = false ∧
    (processReq o ⟨"exec", payload, wr⟩ s).events = [] ∧
    (processReq o ⟨"exec", payload, wr⟩ s).state = s := by
  have hr : processReq o ⟨"exec", payload, wr⟩ s = failRes s := by
    simp [processReq, execCase, h]
  rw [hr]
  exact ⟨rfl, rfl, rfl⟩

theorem exec_zero_tokens_fails_witness :
    (processReq ⟨none, true, true⟩ ⟨"exec", [], true⟩ chanStart).ok = false ∧
    (processReq ⟨none, true, true⟩ ⟨"exec", [], true⟩ chanStart).events = [] ∧
    (processReq ⟨none, true, true⟩ ⟨"exec", [], true⟩ chanStart).state = chanStart :=
  exec_zero_tokens_fails ⟨none, true, true⟩ [] true chanStart parseCommands_nil

/-- C2 (amended): a successful "exec" spawns the shell with "-c"
followed by one argument per decoded token, tty-bound iff the channel
has a tty. -/
theorem exec_token_per_argument (o : Oracle) (wr : Bool) (s : ChannelState)
    (payload : Bytes) (toks : List Bytes)
    (h : parseCommands payload = some toks) (hne : toks ≠ []) :
    (processReq o ⟨"exec", payload, wr⟩ s).ok = true ∧
    (processReq o ⟨"exec", payload, wr⟩ s).events =
      [if s.tty = none then Event.spawnNoTty bashName (dashC :: toks)
       else Event.spawnTty bashName (dashC :: toks)] := by
  simp [processReq, execCase, h, hne]

theorem exec_token_per_argument_witness :
    (processReq ⟨none, true, true⟩ ⟨"exec", [0, 0, 0, 1, 97], true⟩ chanStart).ok = true ∧
    (processReq ⟨none, true, true⟩ ⟨"exec", [0, 0, 0, 1, 97], true⟩ chanStart).events =
      [if chanStart.tty = none then Event.spawnNoTty bashName (dashC :: [[97]])
       else Event.spawnTty bashName (dashC :: [[97]])] :=
  exec_token_per_argument ⟨none, true, true⟩ true chanStart [0, 0, 0, 1, 97] [[97]]
    parseCommands_one_token (by decide)

/-- C2 (counterexample): an "exec" payload with the two tokens "a" and
"b" spawns the shell with the three-element argument vector
["-c", "a", "b"], not the two-element ["-c", joined-line]. -/
theorem exec_single_argument_counterexample :
    (processReq ⟨none, true, true⟩ ⟨"exec", [0, 0, 0, 1, 97, 0, 0, 0, 1, 98], true⟩
        chanStart).events =
      [Event.spawnNoTty bashName [dashC, [97], [98]]] ∧
    List.length [dashC, [97], [98]] ≠ 2 := by
  constructor
  · simp [processReq, execCase, parseCommands_two_tokens, chanStart, dashC]
  · decide

theorem subsystemCase_keeps_pty (o : Oracle) (p : Bytes) (c : ChannelState) :
    (subsystemCase o p c).state.pty = c.pty ∧ (subsystemCase o p c).state.tty = c.tty := by
  unfold subsystemCase failRes
  split_ifs <;> exact ⟨rfl, rfl⟩

theorem envCase_keeps_pty (p : Bytes) (c : ChannelState) :
    (envCase p c).state.pty = c.pty ∧ (envCase p c).state.tty = c.tty := by
  unfold envCase failRes
  split_ifs <;> exact ⟨rfl, rfl⟩

theorem windowChangeCase_state (o : Oracle) (p : Bytes) (c : ChannelState) :
    (windowChangeCase o p c).state = c := by
  unfold windowChangeCase failRes
  dsimp only
  split_ifs <;> rfl

theorem shellCase_state (p : Bytes) (c : ChannelState) :
    (shellCase p c).state = c := by
  unfold shellCase failRes
  split_ifs <;> rfl

theorem execCase_state (p : Bytes) (c : ChannelState) :
    (execCase p c).state = c := by
  unfold execCase failRes
  cases hp : parseCommands p with
  | none => rfl
  | some toks =>
    dsimp only
    split_ifs <;> rfl

theorem ptyReqCase_cases (o : Oracle) (p : Bytes) (c : ChannelState) :
    ((ptyReqCase o p c).state.pty = c.pty ∧ (ptyReqCase o p c).state.tty = c.tty) ∨
    ((ptyReqCase o p c).ok = true ∧ ∃ pt, o.ptyOpen = some pt ∧
      (ptyReqCase o p c).state.pty = some pt.1 ∧ (ptyReqCase o p c).state.tty = some pt.2) := by
  unfold ptyReqCase failRes
  split_ifs with h1 h2
  · left; exact ⟨rfl, rfl⟩
  · left; exact ⟨rfl, rfl⟩
  · cases hp : o.ptyOpen with
    | none => left; exact ⟨rfl, rfl⟩
    | some pt => right; exact ⟨rfl, pt, rfl, rfl, rfl⟩

/-- C1 (amended): the pty/tty pair is replaced only by a successful
"pty-req", which stores the freshly allocated pair; every other request
— succeeding or failing — leaves both fields unchanged. -/
theorem pty_replaced_only_by_pty_req (o : Oracle) (req : Request) (s : ChannelState) :
    ((processReq o req s).state.pty = s.pty ∧ (processReq o req s).state.tty = s.tty) ∨
    (req.rtype = "pty-req" ∧ (processReq o req s).ok = true ∧
      ∃ pt, o.ptyOpen = some pt ∧ (processReq o req s).state.pty = some pt.1 ∧
        (processReq o req s).state.tty = some pt.2) := by
  unfold processReq
  split_ifs with h1 h2 h3 h4 h5 h6
  · left; exact subsystemCase_keeps_pty o req.payload s
  · rcases ptyReqCase_cases o req.payload s with h | ⟨hok, pt, hpt, hp, ht⟩
    · left; exact h
    · right; exact ⟨h2, hok, pt, hpt, hp, ht⟩
  · left; rw [windowChangeCase_state]; exact ⟨rfl, rfl⟩
  · left; exact envCase_keeps_pty req.payload s
  · left; rw [shellCase_state]; exact ⟨rfl, rfl⟩
  · left; rw [execCase_state]; exact ⟨rfl, rfl⟩
  · left; exact ⟨rfl, rfl⟩

/-- a valid "pty-req" payload: empty terminal-name string followed by a
zero window-size quad -/
def ptyPayload : Bytes := [0, 0, 0, 0, 0, 0, 0, 0, 0, 0, 0, 0, 0, 0, 0, 0, 0, 0, 0, 0]

/-- C1 (counterexample): after a first successful "pty-req" allocated
the pair (1, 2), a second successful "pty-req" on the same channel
replaces the stored pty with the newly allocated 3 — the pair is not
stable for the lifetime of the channel. -/
theorem pty_req_reallocates_counterexample :
    (processReq ⟨some (1, 2), true, true⟩ ⟨"pty-req", ptyPayload, true⟩ chanStart).ok = true ∧
    (processReq ⟨some (1, 2), true, true⟩ ⟨"pty-req", ptyPayload, true⟩
      chanStart).state.pty = some 1 ∧
    (processReq ⟨some (1, 2), true, true⟩ ⟨"pty-req", ptyPayload, true⟩
      chanStart).state.tty = some 2 ∧
    (processReq ⟨some (3, 4), true, true⟩ ⟨"pty-req", ptyPayload, true⟩
      (processReq ⟨some (1, 2), true, true⟩ ⟨"pty-req", ptyPayload, true⟩
        chanStart).state).ok = true ∧
    (processReq ⟨some (3, 4), true, true⟩ ⟨"pty-req", ptyPayload, true⟩
      (processReq ⟨some (1, 2), true, true⟩ ⟨"pty-req", ptyPayload, true⟩
        chanStart).state).state.pty = some 3 ∧
    some (3 : Nat) ≠ some (1 : Nat) := by
  decide

/-- tag predicate: the event is an "exit-status" send -/
def isSendEvent : FinishEvent → Bool
  | FinishEvent.sendRequest _ _ _ _ => true
  | _ => false

/-- tag predicate: the event is a channel close -/
def isCloseEvent : FinishEvent → Bool
  | FinishEvent.close _ => true
  | _ => false

/-- C3 (amended): finishCmd always performs exactly the four steps wait,
write half-close, one "exit-status" send (no reply expected, payload the
4-byte big-endian exitcode) and one close, in that order, whatever each
step's own failure; the exitcode is uint32(ExitCode()) when the process
state is available — so an abnormal exit reported as -1 yields
4294967295 — and the 255 sentinel only when the state is unavailable. -/
theorem finishCmd_completion (inp : FinishInput) :
    finishCmd inp =
      [FinishEvent.wait inp.waitErr, FinishEvent.closeWrite inp.closeWriteErr,
       FinishEvent.sendRequest "exit-status" false
         (beBytes32 (exitcodeOf inp.procState)) inp.sendErr,
       FinishEvent.close inp.closeErr] ∧
    (finishCmd inp).countP isSendEvent = 1 ∧
    (finishCmd inp).countP isCloseEvent = 1 ∧
    exitcodeOf none = 255 ∧
    (∀ n : Nat, n < 4294967296 → exitcodeOf (some ⟨(n : Int)⟩) = n) ∧
    exitcodeOf (some ⟨-1⟩) = 4294967295 := by
  refine ⟨rfl, ?_, ?_, rfl, ?_, by decide⟩
  · simp [finishCmd, List.countP_cons, isSendEvent]
  · simp [finishCmd, List.countP_cons, isCloseEvent]
  · intro n hn
    simp only [exitcodeOf, u32ofInt]
    omega

theorem finishCmd_completion_witness :
    exitcodeOf (some ⟨(7 : Int)⟩) = 7 ∧
    (finishCmd ⟨none, true, true, true, true⟩).countP isSendEvent = 1 :=
  ⟨(finishCmd_completion ⟨some ⟨(7 : Int)⟩, false, false, false, false⟩).2.2.2.2.1 7 (by decide),
   (finishCmd_completion ⟨none, true, true, true, true⟩).2.1⟩

/-- C3 (counterexample): for a process terminated abnormally
(ExitCode() = -1) the "exit-status" payload actually sent is
0xFFFFFFFF, which is not the big-endian encoding of the 255 sentinel. -/
theorem finishCmd_abnormal_not_255 :
    FinishEvent.sendRequest "exit-status" false [255, 255, 255, 255] false ∈
      finishCmd ⟨some ⟨-1⟩, false, false, false, false⟩ ∧
    ([255, 255, 255, 255] : Bytes) ≠ beBytes32 255 := by
  constructor
  · have h : beBytes32 (exitcodeOf (some ⟨-1⟩)) = [255, 255, 255, 255] := by decide
    simp [finishCmd, h]
  · decide

/-- tag predicate: the event is one of the per-child teardown steps -/
def isChildEvent : CloseEvent → Bool
  | CloseEvent.cancelChild _ => true
  | CloseEvent.closePty _ => true
  | CloseEvent.closeTty _ => true
  | CloseEvent.closeStream _ => true
  | _ => false

/-- none of a child's present descriptors failed to close -/
def childOk (ch : ChildClose) : Prop :=
  ch.pty ≠ some true ∧ ch.tty ≠ some true ∧ ch.stream ≠ some true

theorem childCloseEvents_isChild (i : Nat) (ch : ChildClose) :
    ∀ e ∈ childCloseEvents i ch, isChildEvent e = true := by
  unfold childCloseEvents
  split_ifs <;> intro e he <;> fin_cases he <;> rfl

theorem closeChildren_isChild (l : List ChildClose) :
    ∀ i e, e ∈ closeChildren i l → isChildEvent e = true := by
  induction l with
  | nil =>
    intro i e h
    simp [closeChildren] at h
  | cons hd tl ih =>
    intro i e h
    rw [closeChildren] at h
    rcases List.mem_append.mp h with h | h
    · exact childCloseEvents_isChild i hd e h
    · exact ih (i + 1) e h

theorem closeChildren_mem (l : List ChildClose) :
    ∀ i j ch, l[j]? = some ch →
      CloseEvent.cancelChild (i + j) ∈ closeChildren i l ∧
      (ch.pty.isSome → CloseEvent.closePty (i + j) ∈ closeChildren i l) ∧
      (ch.tty.isSome → CloseEvent.closeTty (i + j) ∈ closeChildren i l) ∧
      (ch.stream.isSome → CloseEvent.closeStream (i + j) ∈ closeChildren i l) := by
  induction l with
  | nil =>
    intro i j ch h
    simp at h
  | cons hd tl ih =>
    intro i j ch h
    cases j with
    | zero =>
      have hch : hd = ch := by simpa using h
      subst hch
      rw [closeChildren]
      refine ⟨List.mem_append_left _ (by simp [childCloseEvents]), ?_, ?_, ?_⟩
      · intro hp
        exact List.mem_append_left _ (by simp [childCloseEvents, hp])
      · intro hp
        exact List.mem_append_left _ (by simp [childCloseEvents, hp])
      · intro hp
        exact List.mem_append_left _ (by simp [childCloseEvents, hp])
    | succ j' =>
      have h' : tl[j']? = some ch := by simpa using h
      have hih := ih (i + 1) j' ch h'
      have hidx : i + (j' + 1) = (i + 1) + j' := by omega
      rw [closeChildren, hidx]
      refine ⟨List.mem_append_right _ hih.1, ?_, ?_, ?_⟩
      · intro hp
        exact List.mem_append_right _ (hih.2.1 hp)
      · intro hp
        exact List.mem_append_right _ (hih.2.2.1 hp)
      · intro hp
        exact List.mem_append_right _ (hih.2.2.2 hp)

theorem childErrs_ok (ch : ChildClose) :
    ((childErrs ch).any id = false) ↔ childOk ch := by
  rcases ch with ⟨p, t, st⟩
  cases p <;> cases t <;> cases st <;>
    simp [childErrs, childOk, Option.toList]

/-- C4: ServerConn.Close first waits for all spawned work, then for
every recorded child cancels its scope and closes each of its pty, tty
and stream that exists — all child steps lie strictly between the wait
and the final two steps — then cancels the connection scope, then closes
the transport; the joined error it returns is success exactly when every
attempted close (children and transport) succeeded. -/
theorem serverConnClose_spec (c : ConnClose) :
    (serverConnClose c).1.head? = some CloseEvent.wait ∧
    (∃ mid, (serverConnClose c).1 =
        CloseEvent.wait :: (mid ++ [CloseEvent.cancelConn, CloseEvent.closeTransport]) ∧
        ∀ e ∈ mid, isChildEvent e = true) ∧
    (∀ j ch, c.children[j]? = some ch →
      CloseEvent.cancelChild j ∈ (serverConnClose c).1 ∧
      (ch.pty.isSome → CloseEvent.closePty j ∈ (serverConnClose c).1) ∧
      (ch.tty.isSome → CloseEvent.closeTty j ∈ (serverConnClose c).1) ∧
      (ch.stream.isSome → CloseEvent.closeStream j ∈ (serverConnClose c).1)) ∧
    ((serverConnClose c).2.any id = false ↔
      ((∀ ch ∈ c.children, childOk ch) ∧ c.transportErr = false)) := by
  refine ⟨rfl, ⟨closeChildren 0 c.children, rfl, fun e he => closeChildren_isChild _ 0 e he⟩,
    ?_, ?_⟩
  · intro j ch h
    have hm := closeChildren_mem c.children 0 j ch h
    rw [Nat.zero_add] at hm
    have lift : ∀ e : CloseEvent, e ∈ closeChildren 0 c.children →
        e ∈ (serverConnClose c).1 := by
      intro e he
      exact List.mem_cons_of_mem _ (List.mem_append_left _ he)
    exact ⟨lift _ hm.1, fun hp => lift _ (hm.2.1 hp), fun hp => lift _ (hm.2.2.1 hp),
      fun hp => lift _ (hm.2.2.2 hp)⟩
  · show ((c.children.flatMap childErrs ++ [c.transportErr]).any id = false ↔ _)
    rw [List.any_append]
    simp only [Bool.or_eq_false_iff]
    constructor
    · rintro ⟨hflat, htr⟩
      refine ⟨?_, by simpa using htr⟩
      intro ch hch
      rw [← childErrs_ok]
      rw [List.any_eq_false] at hflat ⊢
      intro x hx
      exact hflat x (List.mem_flatMap.mpr ⟨ch, hch, hx⟩)
    · rintro ⟨hok, htr⟩
      refine ⟨?_, by simpa using htr⟩
      rw [List.any_eq_false]
      intro x hx
      rcases List.mem_flatMap.mp hx with ⟨ch, hch, hx⟩
      have := (childErrs_ok ch).mpr (hok ch hch)
      rw [List.any_eq_false] at this
      exact this x hx

theorem serverConnClose_spec_witness :
    CloseEvent.cancelChild 0 ∈
      (serverConnClose ⟨[⟨some false, none, some true⟩], false⟩).1 ∧
    CloseEvent.closePty 0 ∈
      (serverConnClose ⟨[⟨some false, none, some true⟩], false⟩).1 ∧
    CloseEvent.closeStream 0 ∈
      (serverConnClose ⟨[⟨some false, none, some true⟩], false⟩).1 :=
  ⟨((serverConnClose_spec ⟨[⟨some false, none, some true⟩], false⟩).2.2.1 0
      ⟨some false, none, some true⟩ (by decide)).1,
   ((serverConnClose_spec ⟨[⟨some false, none, some true⟩], false⟩).2.2.1 0
      ⟨some false, none, some true⟩ (by decide)).2.1 (by decide),
   ((serverConnClose_spec ⟨[⟨some false, none, some true⟩], false⟩).2.2.1 0
      ⟨some false, none, some true⟩ (by decide)).2.2.2 (by decide)⟩

end Sshd
